import Mathlib

/-!
Shallow embedding of the Talabat POS sandbox (NetRider88/POS-SandBox).

The JavaScript sources are embedded as executable Lean definitions:
  * `POS.Monitoring`  — `public/js/monitoring.js` (`MonitoringManager`)
  * `POS.Reports`     — the `ReportsManager` module
  * `POS.Config`      — `public/js/config.js` (`ConfigurationManager`)
  * `POS.Auth`        — the express server's `/api/auth/login` handler

JavaScript numbers are modelled as `ℚ` (the code never relies on float
rounding in the properties verified here), machine timestamps and counters as
`Nat`/`Int`.  DOM access, `localStorage`, `console` and chart drawing are
side effects outside the data model and are omitted; platform services
(`Date.now`, `Math.random`, `Date.prototype.toISOString`, URL parsing) are
threaded through explicit environment/clock parameters so the definitions
stay pure and executable.
-/

namespace POS

/-- JavaScript runtime values as they occur in the report records and logs:
strings, numbers, booleans, `null`, `undefined`, plain objects and arrays. -/
inductive JSValue where
  | str (v : String)
  | num (v : ℚ)
  | bool (v : Bool)
  | null
  | undefined
  | obj (fields : List (String × JSValue))
  | arr (elems : List JSValue)

/-- A JavaScript object, as an ordered association list of own properties
(JS objects cannot repeat a key, see the `Nodup` hypotheses used below). -/
abbrev Record := List (String × JSValue)

/-- Property access `record[key]`: the value of the first matching key,
`none` models `undefined` for an absent property. -/
def recordGet? (r : Record) (k : String) : Option JSValue :=
  (r.find? (fun p => p.1 = k)).map (·.2)

/-- JS falsiness on our value type (`'' , 0, false, null, undefined`). -/
def jsFalsy : JSValue → Bool
  | .str v => v = ""
  | .num v => v = 0
  | .bool v => v = false
  | .null => true
  | .undefined => true
  | .obj _ => false
  | .arr _ => false

/-- JS `x || null` as applied to a `details` payload. -/
def jsOrNull (v : JSValue) : JSValue := if jsFalsy v then .null else v

/-- JS `s || dflt` for strings (empty string and missing are falsy). -/
def jsOrStr (s dflt : String) : String := if s = "" then dflt else s

/-- JS `s.startsWith(pre)`, on the character lists so that proofs can
evaluate it. -/
def strStartsWith (s pre : String) : Bool := decide (pre.toList <+: s.toList)

/-- JS `Math.floor` on a rational. -/
def mathFloor (q : ℚ) : Int := ⌊q⌋

/-- JS `Math.ceil` on a rational. -/
def mathCeil (q : ℚ) : Int := ⌈q⌉

/-- JS `Math.round` (round half towards +∞). -/
def mathRound (q : ℚ) : Int := ⌊q + 1/2⌋

/-- Decimal rendering of `n.toFixed(2)`-style cents values: two digits. -/
def pad2 (n : Nat) : String := if n < 10 then "0" ++ toString n else toString n

/-- JS `Number.prototype.toFixed(2)` on a rational (round half away handled
as round-half-up; the generated sample amounts never hit a tie that matters
for the verified claims). -/
def toFixed2 (q : ℚ) : String :=
  let c : Int := mathRound (q * 100)
  (if c < 0 then "-" else "") ++ toString (c.natAbs / 100) ++ "." ++ pad2 (c.natAbs % 100)

/-- JS `Number.prototype.toFixed(1)` on a rational. -/
def toFixed1 (q : ℚ) : String :=
  let d : Int := mathRound (q * 10)
  (if d < 0 then "-" else "") ++ toString (d.natAbs / 10) ++ "." ++ toString (d.natAbs % 10)

/-- Numeric value of a digit list (used by the `parseFloat` model). -/
def digitsVal (cs : List Char) : Nat :=
  cs.foldl (fun a c => a * 10 + (c.toNat - 48)) 0

/-- JS `parseFloat` restricted to the well-formed decimal strings produced by
`toFixed2`/`toFixed1` (optional sign, digits, optional fraction); other
inputs — which never occur in the embedded flows — evaluate to 0. -/
def jsParseFloat (s : String) : ℚ :=
  let cs := s.toList
  let signed := match cs with
    | '-' :: r => (true, r)
    | '+' :: r => (false, r)
    | _ => (false, cs)
  let intPart := signed.2.takeWhile Char.isDigit
  let rest := signed.2.drop intPart.length
  let fracPart := match rest with
    | '.' :: r => r.takeWhile Char.isDigit
    | _ => []
  let v : ℚ := (digitsVal intPart : ℚ) + (digitsVal fracPart : ℚ) / (10 : ℚ) ^ fracPart.length
  if signed.1 then -v else v

/-- Rendering of a JS number by string coercion; integral rationals print as
integers (exact float formatting is platform behaviour and never inspected
by the verified claims). -/
def jsNumToString (q : ℚ) : String :=
  if q.den = 1 then toString q.num else toString q.num ++ "/" ++ toString q.den

mutual
/-- JS `String(value)` coercion: objects print as `[object Object]`,
array elements are comma-joined with `null`/`undefined` elements empty. -/
def jsToString : JSValue → String
  | .str v => v
  | .num v => jsNumToString v
  | .bool v => if v then "true" else "false"
  | .null => "null"
  | .undefined => "undefined"
  | .obj _ => "[object Object]"
  | .arr l => String.intercalate "," (jsToStringElems l)

/-- Array element rendering inside `String([...])`. -/
def jsToStringElems : List JSValue → List String
  | [] => []
  | .null :: r => "" :: jsToStringElems r
  | .undefined :: r => "" :: jsToStringElems r
  | v :: r => jsToString v :: jsToStringElems r
end

/-- JS `arr.slice(-n)`: the last `n` elements. -/
def sliceLast (l : List α) (n : Nat) : List α := l.drop (l.length - n)

/-- The recurring push-then-cap pattern
`arr.push(x); if (arr.length > max) arr = arr.slice(-max)`. -/
def pushTrunc (l : List α) (x : α) (n : Nat) : List α :=
  let l' := l ++ [x]
  if n < l'.length then sliceLast l' n else l'

namespace Monitoring

/-- One point of a metric series (`{timestamp: Date.now(), value}`). -/
structure MetricPoint where
  timestamp : Nat
  value : ℚ
deriving DecidableEq

/-- A stored log entry as built by `MonitoringManager.addLog`. -/
structure LogEntry where
  id : ℚ
  timestamp : String
  level : String
  message : String
  module : String
  details : JSValue

/-- The raw object handed to `addLog`; empty strings model absent (falsy)
fields, matching the `||`-defaulting in the source. -/
structure LogInput where
  timestamp : String := ""
  level : String := ""
  message : String := ""
  module : String := ""
  details : JSValue := .undefined

/-- An in-flight call as stored in `window.apiCallTracker`. -/
structure CallData where
  startTime : ℚ
  endpoint : String
  method : String

/-- `this.performanceData` of the `MonitoringManager`. -/
structure PerformanceData where
  apiCalls : Nat
  successfulCalls : Nat
  failedCalls : Nat
  totalResponseTime : ℚ
  averageResponseTime : ℚ

/-- The mutable state of the monitoring subsystem: the manager's own fields
plus the `window.apiCallTracker` map keyed by call id. -/
structure MState where
  logs : List LogEntry
  responseTime : List MetricPoint
  successRate : List MetricPoint
  errorRate : List MetricPoint
  activeOrders : Nat
  systemStatus : String
  performanceData : PerformanceData
  tracker : List (ℚ × CallData)

/-- `this.maxLogEntries` (constructor constant). -/
def maxLogEntries : Nat := 1000

/-- `this.maxMetricPoints` (constructor constant). -/
def maxMetricPoints : Nat := 50

/-- The manager's constructor state (before any event). -/
def initState : MState :=
  { logs := []
    responseTime := []
    successRate := []
    errorRate := []
    activeOrders := 0
    systemStatus := "monitoring"
    performanceData := ⟨0, 0, 0, 0, 0⟩
    tracker := [] }

/-- Platform clock sample threaded through each operation: `Date.now()`,
`new Date().toISOString()`, `Math.random()` and `performance.now()`. -/
structure Clock where
  nowMs : Nat
  nowIso : String
  rand : ℚ
  perfNow : ℚ

/-- JS `Map.get`: first (unique) binding of the key. -/
def mapGet? (m : List (ℚ × CallData)) (k : ℚ) : Option CallData :=
  (m.find? (fun p => p.1 = k)).map (·.2)

/-- JS `Map.set`: replace an existing binding or append a new one. -/
def mapSet (m : List (ℚ × CallData)) (k : ℚ) (v : CallData) : List (ℚ × CallData) :=
  if (m.find? (fun p => p.1 = k)).isSome then
    m.map (fun p => if p.1 = k then (k, v) else p)
  else m ++ [(k, v)]

/-- JS `Map.delete`. -/
def mapDelete (m : List (ℚ × CallData)) (k : ℚ) : List (ℚ × CallData) :=
  m.filter (fun p => !(p.1 = k : Bool))

/-- `MonitoringManager.updateErrorRate`: appends
`failedCalls / apiCalls * 100` (0 when no calls) to the capped error-rate
series. -/
def updateErrorRate (clk : Clock) (s : MState) : MState :=
  let totalCalls := s.performanceData.apiCalls
  let errorRate : ℚ :=
    if 0 < totalCalls then (s.performanceData.failedCalls : ℚ) / (totalCalls : ℚ) * 100 else 0
  { s with errorRate := pushTrunc s.errorRate ⟨clk.nowMs, errorRate⟩ maxMetricPoints }

/-- `MonitoringManager.updateSuccessRate`: appends
`successfulCalls / (successfulCalls + failedCalls) * 100` (100 when no
completed calls) to the capped success-rate series. -/
def updateSuccessRate (clk : Clock) (s : MState) : MState :=
  let totalCalls := s.performanceData.successfulCalls + s.performanceData.failedCalls
  let successRate : ℚ :=
    if 0 < totalCalls then (s.performanceData.successfulCalls : ℚ) / (totalCalls : ℚ) * 100 else 100
  { s with successRate := pushTrunc s.successRate ⟨clk.nowMs, successRate⟩ maxMetricPoints }

/-- `MonitoringManager.addLog`: normalises the entry, appends it to the
capped log list and, for error-level entries, bumps `failedCalls` and
refreshes the error-rate series.  (`updateLiveLogs`, `console.log` are DOM /
console effects outside the data model.) -/
def addLog (clk : Clock) (input : LogInput) (s : MState) : MState :=
  let entry : LogEntry :=
    { id := (clk.nowMs : ℚ) + clk.rand
      timestamp := jsOrStr input.timestamp clk.nowIso
      level := jsOrStr input.level "info"
      message := input.message
      module := jsOrStr input.module "Unknown"
      details := jsOrNull input.details }
  let s1 := { s with logs := pushTrunc s.logs entry maxLogEntries }
  if entry.level = "error" then
    updateErrorRate clk
      { s1 with performanceData :=
          { s1.performanceData with failedCalls := s1.performanceData.failedCalls + 1 } }
  else s1

/-- The event detail of `apiCallStart`; `none` models an absent or zero
(falsy) `callId`, in which case the handler generates one. -/
structure StartDetails where
  callId : Option ℚ
  endpoint : String
  method : String

/-- `MonitoringManager.trackAPICallStart`: counts the call, registers it in
`window.apiCallTracker` and logs the start. -/
def trackAPICallStart (clk : Clock) (d : StartDetails) (s : MState) : MState :=
  let callId : ℚ := match d.callId with
    | some c => if c = 0 then (clk.nowMs : ℚ) + clk.rand else c
    | none => (clk.nowMs : ℚ) + clk.rand
  let s1 := { s with
    performanceData :=
      { s.performanceData with apiCalls := s.performanceData.apiCalls + 1 }
    tracker := mapSet s.tracker callId ⟨clk.perfNow, d.endpoint, d.method⟩ }
  addLog clk
    { timestamp := clk.nowIso
      level := "info"
      message := "API Call Started: " ++ d.method ++ " " ++ d.endpoint
      module := "APITracker"
      details := .obj [("callId", .num callId), ("endpoint", .str d.endpoint), ("method", .str d.method)] }
    s1

/-- The event detail of `apiCallEnd`. -/
structure EndDetails where
  callId : ℚ
  success : Bool
  status : JSValue

/-- `MonitoringManager.trackAPICallEnd`: for a tracked call, accumulates
response time, bumps the success/failure counters, appends to the capped
response-time series, logs the outcome (error level on failure) and drops
the tracker entry; in every case it then refreshes the success rate. -/
def trackAPICallEnd (clk : Clock) (d : EndDetails) (s : MState) : MState :=
  match mapGet? s.tracker d.callId with
  | some callData =>
      let responseTime : ℚ := clk.perfNow - callData.startTime
      let pd0 := s.performanceData
      let pd1 := { pd0 with totalResponseTime := pd0.totalResponseTime + responseTime }
      -- JS divides by `apiCalls` (NaN when zero); `ℚ` division by zero is 0,
      -- a value no verified claim inspects.
      let pd2 := { pd1 with averageResponseTime := pd1.totalResponseTime / (pd1.apiCalls : ℚ) }
      let pd3 :=
        if d.success then { pd2 with successfulCalls := pd2.successfulCalls + 1 }
        else { pd2 with failedCalls := pd2.failedCalls + 1 }
      let s1 := { s with
        performanceData := pd3
        responseTime := pushTrunc s.responseTime ⟨clk.nowMs, responseTime⟩ maxMetricPoints }
      let s2 := addLog clk
        { timestamp := clk.nowIso
          level := if d.success then "success" else "error"
          message := "API Call " ++ (if d.success then "Completed" else "Failed") ++ ": " ++
            callData.method ++ " " ++ callData.endpoint ++ " (" ++
            toString (mathRound responseTime) ++ "ms)"
          module := "APITracker"
          details := .obj [("callId", .num d.callId), ("responseTime", .num responseTime),
            ("status", d.status), ("startTime", .num callData.startTime),
            ("endpoint", .str callData.endpoint), ("method", .str callData.method)] }
        s1
      let s3 := { s2 with tracker := mapDelete s2.tracker d.callId }
      updateSuccessRate clk s3
  | none => updateSuccessRate clk s

/-- `MonitoringManager.clearLogs`: empties the log list and then logs its own
confirmation entry (display/storage effects omitted). -/
def clearLogs (clk : Clock) (s : MState) : MState :=
  addLog clk
    { timestamp := clk.nowIso
      level := "info"
      message := "All logs cleared"
      module := "MonitoringManager" }
    { s with logs := [] }

/-- The monitoring operations quantified over by the bounded-size claim. -/
inductive Op where
  | addLog (clk : Clock) (input : LogInput)
  | trackStart (clk : Clock) (d : StartDetails)
  | trackEnd (clk : Clock) (d : EndDetails)
  | updSuccess (clk : Clock)
  | updError (clk : Clock)
  | clear (clk : Clock)

/-- One monitoring event. -/
def step (s : MState) : Op → MState
  | .addLog clk input => addLog clk input s
  | .trackStart clk d => trackAPICallStart clk d s
  | .trackEnd clk d => trackAPICallEnd clk d s
  | .updSuccess clk => updateSuccessRate clk s
  | .updError clk => updateErrorRate clk s
  | .clear clk => clearLogs clk s

/-- A sequence of monitoring events. -/
def run (s : MState) (ops : List Op) : MState := ops.foldl step s

/-- The bounded-size invariant: the log list is capped at `maxLogEntries`
and each metric series at `maxMetricPoints`. -/
def inBounds (s : MState) : Prop :=
  s.logs.length ≤ maxLogEntries ∧
  s.responseTime.length ≤ maxMetricPoints ∧
  s.successRate.length ≤ maxMetricPoints ∧
  s.errorRate.length ≤ maxMetricPoints

instance (s : MState) : Decidable (inBounds s) := by
  unfold inBounds; infer_instance

end Monitoring

namespace Reports

/-- One entry of `this.reportTemplates`. -/
structure ReportTemplate where
  name : String
  description : String
  fields : List String

/-- `ReportsManager.reportTemplates` (constructor constant). -/
def reportTemplates : List (String × ReportTemplate) :=
  [ ("completed", ⟨"Completed Orders Report",
      "Report of all successfully completed orders",
      ["order_id", "vendor_code", "total_amount", "completion_time", "customer_info"]⟩),
    ("cancelled", ⟨"Cancelled Orders Report",
      "Report of all cancelled orders with reasons",
      ["order_id", "vendor_code", "total_amount", "cancellation_reason", "cancelled_at"]⟩),
    ("performance", ⟨"Performance Analysis Report",
      "Comprehensive performance metrics and analytics",
      ["response_times", "success_rates", "error_rates", "throughput", "uptime"]⟩),
    ("errors", ⟨"Error Analysis Report",
      "Detailed analysis of errors and issues",
      ["error_types", "error_frequencies", "error_trends", "resolution_times"]⟩),
    ("all", ⟨"Comprehensive Order Report",
      "All orders with complete details",
      ["order_id", "status", "vendor_code", "total_amount", "timestamps", "customer_info"]⟩) ]

/-- The own properties of the `reportTemplates` object literal (the five
template keys).  The truthiness of the full JS bracket lookup
`this.reportTemplates[type]`, which also walks the prototype chain, is
`templateLookupTruthy` below. -/
def templateFor (t : String) : Option ReportTemplate :=
  (reportTemplates.find? (fun p => p.1 = t)).map (·.2)

/-- The property names every plain object inherits from `Object.prototype`
(its standard methods, the Annex-B accessor helpers and the `__proto__`
accessor).  A bracket lookup on an object literal reaches these when the
key is not an own property, and each of their values (a function, or
`Object.prototype` itself for `__proto__`) is truthy. -/
def objectPrototypeMembers : List String :=
  ["constructor", "hasOwnProperty", "isPrototypeOf", "propertyIsEnumerable",
   "toLocaleString", "toString", "valueOf",
   "__defineGetter__", "__defineSetter__", "__lookupGetter__", "__lookupSetter__",
   "__proto__"]

/-- Truthiness of `this.reportTemplates[type]`: the five own templates are
truthy objects; any other key falls through to the prototype chain and is
truthy exactly when it names an `Object.prototype` member; all remaining
keys yield `undefined` (falsy). -/
def templateLookupTruthy (t : String) : Bool :=
  (templateFor t).isSome || objectPrototypeMembers.contains t

/-- The form parameters of a report request.  The date fields carry the
parsed epoch milliseconds of the entered `YYYY-MM-DD` strings; `none` models
a missing or empty input (JS falsy). -/
structure ReportParams where
  fromDate : Option Int
  toDate : Option Int
  type : String
  format : String

/-- `ReportsManager.validateReportParameters`: throws (modelled as
`Except.error`) on a missing date, an inverted range, a range of more than
365 days, an unknown type or an unknown format, and otherwise returns
`true`.  The type check is the truthiness of the bracket lookup
`this.reportTemplates[params.type]`, so a type naming an inherited
`Object.prototype` member (e.g. `toString`) is NOT rejected. -/
def validateReportParameters (p : ReportParams) : Except String Bool :=
  match p.fromDate, p.toDate with
  | some f, some t =>
      if t < f then .error "From date cannot be later than to date"
      else if (365 : ℚ) < ((t - f : Int) : ℚ) / (1000 * 60 * 60 * 24) then
        .error "Date range cannot exceed 365 days"
      else if templateLookupTruthy p.type = false then .error "Invalid report type"
      else if (["json", "csv", "pdf"].contains p.format) = false then
        .error "Invalid report format"
      else .ok true
  | _, _ => .error "Please select date range"

/-- JS `opt?.field || dflt` for strings. -/
def jsOrStrOpt (o : Option String) (dflt : String) : String :=
  match o with
  | some s => jsOrStr s dflt
  | none => dflt

/-- The random draws (`Math.random()` values in `[0,1)`) consumed per
generated completed order. -/
structure OrderDraw where
  dateFrac : ℚ
  completionFrac : ℚ
  amountFrac : ℚ
  phoneFrac : ℚ
  areaFrac : ℚ
  deliveryFrac : ℚ
  ratingFrac : ℚ

/-- The random draws consumed per generated cancelled order. -/
structure CancelDraw where
  dateFrac : ℚ
  cancelFrac : ℚ
  amountFrac : ℚ
  reasonFrac : ℚ
  byFrac : ℚ
  refundFrac : ℚ
  statusFrac : ℚ

/-- A source of `Math.random()` draws for the sample-data generators. -/
structure Rng where
  ordersPerDayFrac : ℚ
  cancelledPerDayFrac : ℚ
  orderDraw : Nat → OrderDraw
  cancelDraw : Nat → CancelDraw

/-- `reportData.reportInfo.vendor`. -/
structure Vendor where
  code : String
  name : String
  environment : String

/-- `reportData.reportInfo`. -/
structure ReportInfo where
  title : String
  description : String
  generatedAt : String
  dateFrom : Option Int
  dateTo : Option Int
  vendor : Vendor

/-- The report document assembled by `createReportData`. -/
structure ReportData where
  reportInfo : ReportInfo
  summary : Record
  records : List Record

/-- The `getMonitoringSummary()` snapshot read by the performance report. -/
structure MonSummary where
  averageResponseTime : ℚ
  successRate : ℚ
  uptime : String
  errorLogs : Nat
  apiCalls : Nat

/-- The ambient browser state read by the reports module: clock and date
formatting, the saved configuration's fields (each `none` when absent) and
the monitoring manager (`none` when not loaded). -/
structure ReportsEnv where
  nowMs : Nat
  nowIso : String
  toISOString : ℚ → String
  parseDate : String → ℚ
  vendorCode : Option String
  integrationName : Option String
  configEnvironment : Option String
  remoteId : Option String
  currency : Option String
  monitoring : Option MonSummary
  monitoringLogs : List Monitoring.LogEntry

/-- String field of a generated record (the generators read their own
objects back when summarising). -/
def recStrD (r : Record) (k : String) : String :=
  match recordGet? r k with
  | some (.str s) => s
  | _ => ""

/-- Numeric field of a generated record. -/
def recNumD (r : Record) (k : String) : ℚ :=
  match recordGet? r k with
  | some (.num q) => q
  | _ => 0

/-- One sample completed order (the object literal in
`generateCompletedOrdersReport`'s loop). -/
def mkCompletedOrder (env : ReportsEnv) (rng : Rng) (rd : ReportData)
    (fromMs toMs : Int) (i : Nat) : Record :=
  let d := rng.orderDraw i
  let orderDate : ℚ := (fromMs : ℚ) + d.dateFrac * ((toMs : ℚ) - (fromMs : ℚ))
  let completionTime : ℚ := orderDate + d.completionFrac * (60 * 60 * 1000)
  let amount : ℚ := d.amountFrac * 100 + 20
  [ ("order_id", .str ("ORD" ++ toString env.nowMs ++ "_" ++ toString i)),
    ("vendor_code", .str rd.reportInfo.vendor.code),
    ("remote_id", .str (jsOrStrOpt env.remoteId "123456")),
    ("order_date", .str (env.toISOString orderDate)),
    ("completion_time", .str (env.toISOString completionTime)),
    ("total_amount", .str (toFixed2 amount)),
    ("currency", .str (jsOrStrOpt env.currency "AED")),
    ("customer_info", .obj
      [("masked_phone", .str ("+971*****" ++ toString (mathFloor (d.phoneFrac * 9000) + 1000))),
       ("area", .str ("Area " ++ toString (mathFloor (d.areaFrac * 10) + 1)))]),
    ("delivery_time_minutes", .num ((mathFloor (d.deliveryFrac * 30) : ℚ) + 20)),
    ("rating", .num ((mathFloor (d.ratingFrac * 2) : ℚ) + 4)) ]

/-- `ReportsManager.generateCompletedOrdersReport`: `Math.ceil` of the day
difference times a random 10–29 orders per day sample records, summarised
over the generated list. -/
def generateCompletedOrdersReport (env : ReportsEnv) (rng : Rng)
    (rd : ReportData) (p : ReportParams) : ReportData :=
  -- In the validated flow both dates are present; `getD 0` covers the
  -- unreachable missing case (where JS would produce NaN and zero records,
  -- just as a 0-width range does here).
  let fromMs : Int := p.fromDate.getD 0
  let toMs : Int := p.toDate.getD 0
  let daysDiff : Int := mathCeil (((toMs - fromMs : Int) : ℚ) / (1000 * 60 * 60 * 24))
  let ordersPerDay : Int := mathFloor (rng.ordersPerDayFrac * 20) + 10
  let sampleOrders : List Record :=
    (List.range (daysDiff * ordersPerDay).toNat).map (mkCompletedOrder env rng rd fromMs toMs)
  let totalRevenue : ℚ := (sampleOrders.map (fun o => jsParseFloat (recStrD o "total_amount"))).sum
  let totalDelivery : ℚ := (sampleOrders.map (fun o => recNumD o "delivery_time_minutes")).sum
  let totalRating : ℚ := (sampleOrders.map (fun o => recNumD o "rating")).sum
  { rd with
    records := sampleOrders
    summary :=
      [ ("total_orders", .num (sampleOrders.length : ℚ)),
        ("total_revenue", .str (toFixed2 totalRevenue)),
        ("average_order_value", .str
          (if 0 < sampleOrders.length then toFixed2 (totalRevenue / (sampleOrders.length : ℚ))
           else "0.00")),
        ("average_delivery_time", .num
          (if 0 < sampleOrders.length then (mathRound (totalDelivery / (sampleOrders.length : ℚ)) : ℚ)
           else 0)),
        ("average_rating", .str
          (if 0 < sampleOrders.length then toFixed1 (totalRating / (sampleOrders.length : ℚ))
           else "0.0")) ] }

/-- The `cancellationReasons` pool. -/
def cancellationReasons : List String :=
  ["Customer Requested", "Restaurant Unavailable", "Out of Stock",
   "Delivery Issues", "Payment Failed", "Technical Error"]

/-- One sample cancelled order (the object literal in
`generateCancelledOrdersReport`'s loop). -/
def mkCancelledOrder (env : ReportsEnv) (rng : Rng) (rd : ReportData)
    (fromMs toMs : Int) (i : Nat) : Record :=
  let d := rng.cancelDraw i
  let orderDate : ℚ := (fromMs : ℚ) + d.dateFrac * ((toMs : ℚ) - (fromMs : ℚ))
  let cancelledAt : ℚ := orderDate + d.cancelFrac * (30 * 60 * 1000)
  [ ("order_id", .str ("CAN" ++ toString env.nowMs ++ "_" ++ toString i)),
    ("vendor_code", .str rd.reportInfo.vendor.code),
    ("order_date", .str (env.toISOString orderDate)),
    ("cancelled_at", .str (env.toISOString cancelledAt)),
    ("total_amount", .str (toFixed2 (d.amountFrac * 100 + 20))),
    ("currency", .str (jsOrStrOpt env.currency "AED")),
    ("cancellation_reason", .str
      (cancellationReasons.getD (mathFloor (d.reasonFrac * (cancellationReasons.length : ℚ))).toNat "")),
    ("cancelled_by", .str (if (1 : ℚ)/2 < d.byFrac then "customer" else "restaurant")),
    ("refund_amount", .str (toFixed2 (d.refundFrac * 100 + 20))),
    ("refund_status", .str (if (1 : ℚ)/5 < d.statusFrac then "processed" else "pending")) ]

/-- `reasonCounts[r] = (reasonCounts[r] || 0) + 1`. -/
def bumpCount (m : List (String × Nat)) (k : String) : List (String × Nat) :=
  if (m.find? (fun p => p.1 = k)).isSome then
    m.map (fun p => if p.1 = k then (p.1, p.2 + 1) else p)
  else m ++ [(k, 1)]

/-- `ReportsManager.generateCancelledOrdersReport`. -/
def generateCancelledOrdersReport (env : ReportsEnv) (rng : Rng)
    (rd : ReportData) (p : ReportParams) : ReportData :=
  let fromMs : Int := p.fromDate.getD 0
  let toMs : Int := p.toDate.getD 0
  let daysDiff : Int := mathCeil (((toMs - fromMs : Int) : ℚ) / (1000 * 60 * 60 * 24))
  let cancelledPerDay : Int := mathFloor (rng.cancelledPerDayFrac * 5) + 1
  let sampleCancelled : List Record :=
    (List.range (daysDiff * cancelledPerDay).toNat).map (mkCancelledOrder env rng rd fromMs toMs)
  let reasonCounts : List (String × Nat) :=
    sampleCancelled.foldl (fun m o => bumpCount m (recStrD o "cancellation_reason")) []
  { rd with
    records := sampleCancelled
    summary :=
      [ ("total_cancelled", .num (sampleCancelled.length : ℚ)),
        ("total_refunded", .str
          (toFixed2 ((sampleCancelled.map (fun o => jsParseFloat (recStrD o "refund_amount"))).sum))),
        ("cancellation_reasons", .obj (reasonCounts.map (fun q => (q.1, .num (q.2 : ℚ))))),
        ("customer_cancelled", .num
          (((sampleCancelled.filter (fun o => recStrD o "cancelled_by" = "customer")).length : ℚ))),
        ("restaurant_cancelled", .num
          (((sampleCancelled.filter (fun o => recStrD o "cancelled_by" = "restaurant")).length : ℚ))),
        ("refunds_processed", .num
          (((sampleCancelled.filter (fun o => recStrD o "refund_status" = "processed")).length : ℚ))),
        ("refunds_pending", .num
          (((sampleCancelled.filter (fun o => recStrD o "refund_status" = "pending")).length : ℚ))) ] }

/-- JS option comparison `x < b` (false when `x` is undefined, as NaN
comparisons are). -/
def optLt (o : Option ℚ) (b : ℚ) : Bool :=
  match o with
  | some q => decide (q < b)
  | none => false

/-- JS option comparison `x > b`. -/
def optGt (o : Option ℚ) (b : ℚ) : Bool :=
  match o with
  | some q => decide (b < q)
  | none => false

/-- JS `x || dflt` on an optional number (0 and undefined both fall back). -/
def jsOrNumOpt (o : Option ℚ) (dflt : ℚ) : ℚ :=
  match o with
  | some q => if q = 0 then dflt else q
  | none => dflt

/-- `ReportsManager.generatePerformanceRecommendations`. -/
def generatePerformanceRecommendations (mon : Option MonSummary) : List String :=
  let avg := mon.map (·.averageResponseTime)
  let sr := mon.map (·.successRate)
  let recs :=
    (if optGt avg 1000 then ["Consider optimizing API response times"] else []) ++
    (if optLt sr 95 then ["Investigate and resolve API failures"] else []) ++
    (if (match mon.map (·.errorLogs) with | some n => 0 < n | none => false : Bool) then
      ["Review and address system errors"] else [])
  if 0 < recs.length then recs else ["System performance is optimal"]

/-- `ReportsManager.generatePerformanceReport`. -/
def generatePerformanceReport (env : ReportsEnv) (rd : ReportData) : ReportData :=
  let mon := env.monitoring
  let avg := mon.map (·.averageResponseTime)
  let sr := mon.map (·.successRate)
  let up := mon.map (·.uptime)
  let calls : Nat := (mon.map (·.apiCalls)).getD 0
  { rd with
    records :=
      [ [ ("metric", .str "API Response Time"), ("value", .num (jsOrNumOpt avg 0)),
          ("unit", .str "ms"),
          ("status", .str (if optLt avg 1000 then "good" else "needs_attention")) ],
        [ ("metric", .str "Success Rate"), ("value", .num (jsOrNumOpt sr 100)),
          ("unit", .str "%"),
          ("status", .str
            (if optGt sr 95 then "excellent" else if optGt sr 90 then "good" else "poor")) ],
        [ ("metric", .str "Total API Calls"), ("value", .num (calls : ℚ)),
          ("unit", .str "calls"), ("status", .str "info") ],
        [ ("metric", .str "Error Rate"),
          ("value", .num (match sr with
            | some q => if q = 0 then 0 else 100 - q
            | none => 0)),
          ("unit", .str "%"),
          ("status", .str (if optGt sr 95 then "excellent" else "needs_attention")) ],
        [ ("metric", .str "System Uptime"), ("value", .str (jsOrStrOpt up "Unknown")),
          ("unit", .str "status"),
          ("status", .str (if (up = some "Active" : Bool) then "excellent" else "warning")) ] ]
    summary :=
      [ ("overall_performance", .str
          (if optGt sr 95 && optLt avg 1000 then "Excellent"
           else if optGt sr 90 && optLt avg 2000 then "Good"
           else "Needs Improvement")),
        ("recommendations", .arr ((generatePerformanceRecommendations mon).map .str)) ] }

/-- JS `message.includes(sub)`. -/
def strIncludes (s sub : String) : Bool := decide (sub.toList <:+: s.toList)

/-- `ReportsManager.categorizeError`. -/
def categorizeError (message : String) : String :=
  if strIncludes message "Authentication" || strIncludes message "login" then "Authentication"
  else if strIncludes message "Network" || strIncludes message "fetch" then "Network"
  else if strIncludes message "JSON" || strIncludes message "parse" then "Data Format"
  else if strIncludes message "timeout" then "Timeout"
  else if strIncludes message "Permission" || strIncludes message "access" then "Permission"
  else "General"

/-- `errorTypes[t].push(log)`, creating the group on first use. -/
def addToGroup (m : List (String × List Monitoring.LogEntry)) (k : String)
    (log : Monitoring.LogEntry) : List (String × List Monitoring.LogEntry) :=
  if (m.find? (fun p => p.1 = k)).isSome then
    m.map (fun p => if p.1 = k then (p.1, p.2 ++ [log]) else p)
  else m ++ [(k, [log])]

/-- One element of the `errorSummary` array. -/
def errorSummaryRecord (g : String × List Monitoring.LogEntry) : Record :=
  [ ("error_type", .str g.1),
    ("count", .num (g.2.length : ℚ)),
    ("first_occurrence", match g.2.head? with | some l => .str l.timestamp | none => .undefined),
    ("last_occurrence", match g.2.getLast? with | some l => .str l.timestamp | none => .undefined),
    ("sample_message", match g.2.head? with | some l => .str l.message | none => .undefined) ]

/-- `ReportsManager.calculateErrorTrend`. -/
def calculateErrorTrend (env : ReportsEnv) (errorLogs : List Monitoring.LogEntry) : String :=
  let oneHourAgo : ℚ := (env.nowMs : ℚ) - 60 * 60 * 1000
  let recent := errorLogs.filter (fun l => decide (oneHourAgo < env.parseDate l.timestamp))
  let older := errorLogs.filter (fun l => decide (env.parseDate l.timestamp ≤ oneHourAgo))
  if older.length < recent.length then "increasing"
  else if recent.length < older.length then "decreasing"
  else "stable"

/-- `ReportsManager.generateErrorsReport`. -/
def generateErrorsReport (env : ReportsEnv) (rd : ReportData) : ReportData :=
  let errorLogs := env.monitoringLogs.filter (fun l => decide (l.level = "error"))
  let groups := errorLogs.foldl (fun m log => addToGroup m (categorizeError log.message) log) []
  { rd with
    records := errorLogs.map (fun log =>
      [ ("timestamp", .str log.timestamp),
        ("error_type", .str (categorizeError log.message)),
        ("message", .str log.message),
        ("module", .str log.module),
        ("details", log.details) ])
    summary :=
      [ ("total_errors", .num (errorLogs.length : ℚ)),
        ("unique_error_types", .num (groups.length : ℚ)),
        ("error_types_summary", .arr (groups.map (fun g => .obj (errorSummaryRecord g)))),
        ("error_trend", .str (calculateErrorTrend env errorLogs)),
        ("most_common_error", match groups with
          | [] => JSValue.null
          | g :: rest => .obj (errorSummaryRecord
              (rest.foldl (fun mx cur => if mx.2.length < cur.2.length then cur else mx) g))) ] }

/-- Descending order-date comparison used by the combined report's sort. -/
def dateDescLe (env : ReportsEnv) (a b : Record) : Prop :=
  env.parseDate (recStrD b "order_date") ≤ env.parseDate (recStrD a "order_date")

instance (env : ReportsEnv) : DecidableRel (dateDescLe env) :=
  fun _a _b => inferInstanceAs (Decidable (_ ≤ _))

/-- `ReportsManager.generateAllOrdersReport`: combines the completed and
cancelled samples, tags each with a `status` field and sorts by order date,
newest first. -/
def generateAllOrdersReport (env : ReportsEnv) (rng : Rng)
    (rd : ReportData) (p : ReportParams) : ReportData :=
  let completedData := generateCompletedOrdersReport env rng rd p
  let cancelledData := generateCancelledOrdersReport env rng rd p
  let allOrders :=
    completedData.records.map (fun o => o ++ [("status", .str "completed")]) ++
    cancelledData.records.map (fun o => o ++ [("status", .str "cancelled")])
  let sorted := allOrders.insertionSort (dateDescLe env)
  { rd with
    records := sorted
    summary :=
      [ ("total_orders", .num (allOrders.length : ℚ)),
        ("completed_orders", .num (completedData.records.length : ℚ)),
        ("cancelled_orders", .num (cancelledData.records.length : ℚ)),
        ("completion_rate", .str
          (if 0 < allOrders.length then
            toFixed1 ((completedData.records.length : ℚ) / (allOrders.length : ℚ) * 100) ++ "%"
           else "0%")),
        ("total_revenue", (recordGet? completedData.summary "total_revenue").getD .undefined),
        ("total_refunded", (recordGet? cancelledData.summary "total_refunded").getD .undefined) ] }

/-- `ReportsManager.createReportData`: the common header plus the
type-specific generator; an unmatched type leaves the empty skeleton, as the
`switch` without a default does. -/
def createReportData (env : ReportsEnv) (rng : Rng) (p : ReportParams) : ReportData :=
  -- For the five own keys this is the template.  Validation also lets an
  -- inherited `Object.prototype` member name through (see
  -- `templateLookupTruthy`); there JS reads `.name`/`.description` off the
  -- inherited function — a name string and `undefined`, feeding only the
  -- report header, which no verified claim inspects — and the fallback
  -- stands in for that pair.
  let template := (templateFor p.type).getD ⟨"", "", []⟩
  let rd : ReportData :=
    { reportInfo :=
        { title := template.name
          description := template.description
          generatedAt := env.nowIso
          dateFrom := p.fromDate
          dateTo := p.toDate
          vendor :=
            { code := jsOrStrOpt env.vendorCode "N/A"
              name := jsOrStrOpt env.integrationName "N/A"
              environment := jsOrStrOpt env.configEnvironment "staging" } }
      summary := []
      records := [] }
  if p.type = "completed" then generateCompletedOrdersReport env rng rd p
  else if p.type = "cancelled" then generateCancelledOrdersReport env rng rd p
  else if p.type = "performance" then generatePerformanceReport env rd
  else if p.type = "errors" then generateErrorsReport env rd
  else if p.type = "all" then generateAllOrdersReport env rng rd p
  else rd

/-- Scalar test of `formatAsCSV`'s column collection:
`typeof record[key] !== 'object' || record[key] === null` (arrays and plain
objects are `'object'`-typed and excluded; `null` is re-admitted by the
explicit second disjunct). -/
def csvEligible : JSValue → Bool
  | .obj _ => false
  | .arr _ => false
  | _ => true

/-- All eligible keys of all records, in encounter order (before the `Set`
deduplication). -/
def csvEligibleKeys (records : List Record) : List String :=
  (records.map (fun r => (r.filter (fun q => csvEligible q.2)).map Prod.fst)).flatten

/-- The deduplicated, sorted column list (`Array.from(columns).sort()`). -/
def csvColumnArray (records : List Record) : List String :=
  (csvEligibleKeys records).dedup.insertionSort (· ≤ ·)

/-- Quote-escaping of a CSV value (`value.replace(/"/g, '""')`). -/
def escQuotes (s : String) : String := s.replace "\"" "\"\""

/-- One CSV cell: empty for `null`/`undefined`/absent values, otherwise the
double-quoted, quote-escaped string coercion. -/
def csvField (r : Record) (c : String) : String :=
  match recordGet? r c with
  | none => ""
  | some .null => ""
  | some .undefined => ""
  | some v => "\"" ++ escQuotes (jsToString v) ++ "\""

/-- One CSV data row, cell per column. -/
def csvRow (cols : List String) (r : Record) : List String := cols.map (csvField r)

/-- `ReportsManager.formatAsCSV` (it reads only `reportData.records`, which
is the argument here). -/
def formatAsCSV (records : List Record) : String :=
  if records.isEmpty then "No data available"
  else
    let cols := csvColumnArray records
    String.intercalate "\n"
      (String.intercalate "," cols ::
        records.map (fun r => String.intercalate "," (csvRow cols r)))

/-- Minimal JSON string escaping (only the quote character occurs in the
embedded payloads). -/
def jsonEscape (s : String) : String := s.replace "\"" "\\\""

mutual
/-- JSON rendering of a value (`JSON.stringify` without the pretty-printing
whitespace, which no verified claim inspects). -/
def jsonOfValue : JSValue → String
  | .str v => "\"" ++ jsonEscape v ++ "\""
  | .num v => jsNumToString v
  | .bool v => if v then "true" else "false"
  | .null => "null"
  | .undefined => "null"
  | .obj fs => "\x7b" ++ String.intercalate "," (jsonOfFields fs) ++ "\x7d"
  | .arr l => "[" ++ String.intercalate "," (jsonOfElems l) ++ "]"

/-- JSON rendering of object fields. -/
def jsonOfFields : List (String × JSValue) → List String
  | [] => []
  | (k, v) :: r => ("\"" ++ jsonEscape k ++ "\":" ++ jsonOfValue v) :: jsonOfFields r

/-- JSON rendering of array elements. -/
def jsonOfElems : List JSValue → List String
  | [] => []
  | v :: r => jsonOfValue v :: jsonOfElems r
end

/-- `dateRange` field rendering for the JSON document. -/
def dateVal : Option Int → JSValue
  | some n => .num (n : ℚ)
  | none => .undefined

/-- `JSON.stringify(reportData, null, 2)` (indentation abstracted away;
only the string's size feeds the history entry). -/
def jsonStringify (rd : ReportData) : String :=
  jsonOfValue (.obj
    [ ("reportInfo", .obj
        [ ("title", .str rd.reportInfo.title),
          ("description", .str rd.reportInfo.description),
          ("generatedAt", .str rd.reportInfo.generatedAt),
          ("dateRange", .obj
            [("from", dateVal rd.reportInfo.dateFrom), ("to", dateVal rd.reportInfo.dateTo)]),
          ("vendor", .obj
            [ ("code", .str rd.reportInfo.vendor.code),
              ("name", .str rd.reportInfo.vendor.name),
              ("environment", .str rd.reportInfo.vendor.environment) ]) ]),
      ("summary", .obj rd.summary),
      ("records", .arr (rd.records.map .obj)) ])

/-- `ReportsManager.formatAsPDF` (the simulated text rendering). -/
def formatAsPDF (rd : ReportData) : String :=
  let dateStr : Option Int → String := fun o =>
    match o with
    | some n => toString n
    | none => "undefined"
  rd.reportInfo.title ++ "\n" ++
  "Generated: " ++ rd.reportInfo.generatedAt ++ "\n" ++
  "Date Range: " ++ dateStr rd.reportInfo.dateFrom ++ " to " ++
    dateStr rd.reportInfo.dateTo ++ "\n\n" ++
  "SUMMARY:\n" ++
  String.join (rd.summary.map (fun q => q.1 ++ ": " ++ jsonOfValue q.2 ++ "\n")) ++
  "\nDETAILS:\n" ++
  String.join ((rd.records.enum.map (fun ri =>
    "Record " ++ toString (ri.1 + 1) ++ ":\n" ++
    String.join (ri.2.map (fun q => "  " ++ q.1 ++ ": " ++ jsToString q.2 ++ "\n")) ++
    "\n")))

/-- `ReportsManager.formatReport`. -/
def formatReport (rd : ReportData) (format : String) : String :=
  if format = "json" then jsonStringify rd
  else if format = "csv" then formatAsCSV rd.records
  else if format = "pdf" then formatAsPDF rd
  else jsonStringify rd

/-- One entry of `this.reportHistory`. -/
structure ReportRecord where
  id : Nat
  type : String
  format : String
  dateFrom : Option Int
  dateTo : Option Int
  generatedAt : String
  recordCount : Nat
  fileSize : Nat

/-- What `generateReport` surfaces: the success panel for the new history
entry, or the single caught-error message. -/
inductive GenOutcome where
  | success (record : ReportRecord)
  | failure (message : String)

/-- `ReportsManager.estimateFileSize` (`new Blob([content]).size` is the
UTF-8 byte count). -/
def estimateFileSize (s : String) : Nat := s.utf8ByteSize

/-- `ReportsManager.generateReport`: validation errors are caught and
surfaced as the single `❌ Report generation failed: …` message with the
history untouched; otherwise the document is generated, formatted and one
record appended to the history.  The dead `!validate` branch of the source
is kept verbatim. -/
def generateReport (env : ReportsEnv) (rng : Rng) (p : ReportParams)
    (history : List ReportRecord) : List ReportRecord × GenOutcome :=
  match validateReportParameters p with
  | .error e => (history, .failure ("❌ Report generation failed: " ++ e))
  | .ok v =>
      if v = false then
        (history, .failure "❌ Report generation failed: Invalid report parameters")
      else
        let reportData := createReportData env rng p
        let formatted := formatReport reportData p.format
        let record : ReportRecord :=
          { id := env.nowMs
            type := p.type
            format := p.format
            dateFrom := p.fromDate
            dateTo := p.toDate
            generatedAt := env.nowIso
            recordCount := reportData.records.length
            fileSize := estimateFileSize formatted }
        (history ++ [record], .success record)

end Reports

namespace Config

/-- The configuration fields read by
`ConfigurationManager.validateConfiguration`; an empty string models a
missing (falsy) field. -/
structure ConfigData where
  integrationName : String
  integrationCode : String
  baseUrl : String
  pluginUsername : String
  pluginPassword : String

/-- What `validateConfiguration` returns:
`{ isValid: errors.length === 0, errors }`. -/
structure ValidationResult where
  isValid : Bool
  errors : List String

/-- The character class `\s` of JS regexes (code points of the ECMAScript
WhiteSpace and LineTerminator productions). -/
def jsWhitespace (c : Char) : Bool :=
  c.toNat ∈ [9, 10, 11, 12, 13, 32, 160, 0x1680,
    0x2000, 0x2001, 0x2002, 0x2003, 0x2004, 0x2005, 0x2006, 0x2007,
    0x2008, 0x2009, 0x200A, 0x2028, 0x2029, 0x202F, 0x205F, 0x3000, 0xFEFF]

/-- Matching of `/^[a-zA-Z\s]+[a-zA-Z]+$/` (the integration-name rule).
A string is in that regex's language exactly when it has at least two
characters, every character is a letter or whitespace, and the last
character is a letter: the final letter serves the second `+` and the
non-empty remainder the first. -/
def nameFormat (s : String) : Bool :=
  2 ≤ s.length &&
  s.toList.all (fun c => c.isAlpha || jsWhitespace c) &&
  (match s.toList.getLast? with
   | some c => c.isAlpha
   | none => false)

/-- Matching of `/^[a-z-]+$/` (the integration-code rule): non-empty, only
lowercase ASCII letters and hyphens. -/
def codeFormat (s : String) : Bool :=
  !(s == "") && s.toList.all (fun c => ('a' ≤ c && c ≤ 'z') || c == '-')

/-- `ConfigurationManager.validateConfiguration`, parameterised by the
browser's URL parser (`isValidUrl` wraps `new URL(string)`, a platform
facility, so it enters as the `checkUrl` argument).  Errors are pushed in
source order and validity is their absence. -/
def validateConfiguration (checkUrl : String → Bool) (data : ConfigData) : ValidationResult :=
  let errors : List String :=
    (if data.integrationName = "" then ["Integration Name is required"]
     else if nameFormat data.integrationName = false then
       ["Integration Name should follow format: \"Company Name Country\""]
     else []) ++
    (if data.integrationCode = "" then ["Integration Code is required"]
     else if codeFormat data.integrationCode = false then
       ["Integration Code should follow format: \"company-name-countrycode\""]
     else []) ++
    (if data.baseUrl = "" then ["Base URL is required"]
     else if checkUrl data.baseUrl = false then ["Base URL is not valid"]
     else if strStartsWith data.baseUrl "https://" = false then ["Base URL must use HTTPS"]
     else []) ++
    (if data.pluginUsername = "" then ["Plugin Username is required"] else []) ++
    (if data.pluginPassword = "" then ["Plugin Password is required"] else [])
  { isValid := errors.isEmpty, errors := errors }

end Config

namespace Auth

/-- The request body of `POST /api/auth/login`; `none` models an absent
property. -/
structure LoginBody where
  username : Option String
  password : Option String

/-- The token payload the handler returns on success. -/
structure TokenData where
  access_token : String
  refresh_token : String
  token_type : String
  expires_in : Nat

/-- The two possible responses of the login route: `200` with
`{success: true, data}` or `400` with `{success: false, error}`. -/
inductive LoginResponse where
  | ok (data : TokenData)
  | badRequest (error : String)

/-- JS truthiness of a possibly-missing string. -/
def jsTruthyOptStr : Option String → Bool
  | some s => !(s == "")
  | none => false

/-- The `app.post('/api/auth/login')` handler, parameterised by
`generateMockToken` (whose output is a base64 blob built from the clock and
`Math.random`, never inspected by the claims). -/
def loginHandler (mkToken : String → String) (b : LoginBody) : LoginResponse :=
  if jsTruthyOptStr b.username && jsTruthyOptStr b.password then
    .ok
      { access_token := mkToken (b.username.getD "")
        refresh_token := mkToken ((b.username.getD "") ++ "_refresh")
        token_type := "Bearer"
        expires_in := 3600 }
  else .badRequest "Username and password required"

end Auth

/-- A concrete ambient environment (fresh page: no saved configuration, no
monitoring manager), used to instantiate the environment-polymorphic
theorems. -/
def sampleEnv : Reports.ReportsEnv :=
  { nowMs := 0, nowIso := "", toISOString := fun _ => "", parseDate := fun _ => 0,
    vendorCode := none, integrationName := none, configEnvironment := none,
    remoteId := none, currency := none, monitoring := none, monitoringLogs := [] }

/-- A concrete random source (all draws 0). -/
def sampleRng : Reports.Rng :=
  { ordersPerDayFrac := 0, cancelledPerDayFrac := 0,
    orderDraw := fun _ => ⟨0, 0, 0, 0, 0, 0, 0⟩, cancelDraw := fun _ => ⟨0, 0, 0, 0, 0, 0, 0⟩ }

/-- A concrete empty report skeleton. -/
def sampleBase : Reports.ReportData :=
  { reportInfo :=
      { title := "", description := "", generatedAt := "", dateFrom := none, dateTo := none,
        vendor := { code := "", name := "", environment := "" } }
    summary := []
    records := [] }

/-! ## Helper lemmas -/

namespace Monitoring

theorem length_pushTrunc_le (l : List α) (x : α) (n : Nat) : (pushTrunc l x n).length ≤ n := by
  simp only [pushTrunc, sliceLast]
  split
  · simp only [List.length_drop]; omega
  · next h => omega

theorem addLog_logs_length (clk : Clock) (input : LogInput) (s : MState) :
    (addLog clk input s).logs.length ≤ maxLogEntries := by
  unfold addLog updateErrorRate
  dsimp only
  split <;> exact length_pushTrunc_le _ _ _

theorem addLog_responseTime (clk : Clock) (input : LogInput) (s : MState) :
    (addLog clk input s).responseTime = s.responseTime := by
  unfold addLog updateErrorRate
  dsimp only
  split <;> rfl

theorem addLog_successRate (clk : Clock) (input : LogInput) (s : MState) :
    (addLog clk input s).successRate = s.successRate := by
  unfold addLog updateErrorRate
  dsimp only
  split <;> rfl

theorem addLog_errorRate_length (clk : Clock) (input : LogInput) (s : MState)
    (h : s.errorRate.length ≤ maxMetricPoints) :
    (addLog clk input s).errorRate.length ≤ maxMetricPoints := by
  unfold addLog updateErrorRate
  dsimp only
  split
  · exact length_pushTrunc_le _ _ _
  · exact h

theorem inBounds_addLog (clk : Clock) (input : LogInput) (s : MState) (h : inBounds s) :
    inBounds (addLog clk input s) := by
  obtain ⟨_h1, h2, h3, h4⟩ := h
  refine ⟨addLog_logs_length _ _ _, ?_, ?_, addLog_errorRate_length _ _ _ h4⟩
  · rw [addLog_responseTime]; exact h2
  · rw [addLog_successRate]; exact h3

theorem inBounds_updateErrorRate (clk : Clock) (s : MState) (h : inBounds s) :
    inBounds (updateErrorRate clk s) := by
  obtain ⟨h1, h2, h3, _h4⟩ := h
  exact ⟨h1, h2, h3, length_pushTrunc_le _ _ _⟩

theorem inBounds_updateSuccessRate (clk : Clock) (s : MState) (h : inBounds s) :
    inBounds (updateSuccessRate clk s) := by
  obtain ⟨h1, h2, _h3, h4⟩ := h
  exact ⟨h1, h2, length_pushTrunc_le _ _ _, h4⟩

theorem inBounds_trackStart (clk : Clock) (d : StartDetails) (s : MState) (h : inBounds s) :
    inBounds (trackAPICallStart clk d s) := by
  obtain ⟨h1, h2, h3, h4⟩ := h
  exact inBounds_addLog _ _ _ ⟨h1, h2, h3, h4⟩

theorem inBounds_trackEnd (clk : Clock) (d : EndDetails) (s : MState) (h : inBounds s) :
    inBounds (trackAPICallEnd clk d s) := by
  obtain ⟨h1, h2, h3, h4⟩ := h
  unfold trackAPICallEnd
  dsimp only
  split
  · apply inBounds_updateSuccessRate
    refine ⟨addLog_logs_length _ _ _, ?_, ?_, addLog_errorRate_length _ _ _ h4⟩
    · rw [addLog_responseTime]; exact length_pushTrunc_le _ _ _
    · rw [addLog_successRate]; exact h3
  · exact inBounds_updateSuccessRate _ _ ⟨h1, h2, h3, h4⟩

theorem inBounds_clearLogs (clk : Clock) (s : MState) (h : inBounds s) :
    inBounds (clearLogs clk s) := by
  obtain ⟨_h1, h2, h3, h4⟩ := h
  exact inBounds_addLog _ _ _ ⟨by simp [maxLogEntries], h2, h3, h4⟩

theorem inBounds_step (s : MState) (op : Op) (h : inBounds s) : inBounds (step s op) := by
  cases op with
  | addLog clk input => exact inBounds_addLog clk input s h
  | trackStart clk d => exact inBounds_trackStart clk d s h
  | trackEnd clk d => exact inBounds_trackEnd clk d s h
  | updSuccess clk => exact inBounds_updateSuccessRate clk s h
  | updError clk => exact inBounds_updateErrorRate clk s h
  | clear clk => exact inBounds_clearLogs clk s h

theorem inBounds_run (s : MState) (ops : List Op) (h : inBounds s) : inBounds (run s ops) := by
  induction ops generalizing s with
  | nil => exact h
  | cons op rest ih => exact ih _ (inBounds_step s op h)

theorem clearLogs_singleton (clk : Clock) (s : MState) :
    (clearLogs clk s).logs.map (fun e => (e.level, e.message)) =
      [("info", "All logs cleared")] := by
  simp [clearLogs, addLog, pushTrunc, sliceLast, jsOrStr, maxLogEntries]

end Monitoring

namespace Reports

theorem validate_ok_true (p : ReportParams) (b : Bool)
    (h : validateReportParameters p = .ok b) : b = true := by
  obtain ⟨fd, td, ty, fm⟩ := p
  unfold validateReportParameters at h
  rcases fd with _ | f <;> rcases td with _ | t <;> dsimp only at h
  · exact absurd h (by simp)
  · exact absurd h (by simp)
  · exact absurd h (by simp)
  · split_ifs at h <;> simp_all

theorem validate_error_mem (p : ReportParams) (e : String)
    (h : validateReportParameters p = .error e) :
    e ∈ ["Please select date range", "From date cannot be later than to date",
         "Date range cannot exceed 365 days", "Invalid report type",
         "Invalid report format"] := by
  obtain ⟨fd, td, ty, fm⟩ := p
  unfold validateReportParameters at h
  rcases fd with _ | f <;> rcases td with _ | t <;> dsimp only at h
  · cases h; decide
  · cases h; decide
  · cases h; decide
  · split_ifs at h <;> cases h <;> decide

theorem validate_invalid_error (p : ReportParams)
    (h : p.fromDate = none ∨ p.toDate = none ∨
      (∃ f t, p.fromDate = some f ∧ p.toDate = some t ∧ t < f) ∨
      (∃ f t, p.fromDate = some f ∧ p.toDate = some t ∧
        (365 : ℚ) < ((t - f : Int) : ℚ) / (1000 * 60 * 60 * 24)) ∨
      (p.type ∉ ["completed", "cancelled", "performance", "errors", "all"] ∧
        p.type ∉ objectPrototypeMembers) ∨
      p.format ∉ ["json", "csv", "pdf"]) :
    ∃ e, validateReportParameters p = .error e := by
  obtain ⟨fd, td, ty, fm⟩ := p
  simp only at h
  unfold validateReportParameters
  rcases fd with _ | f <;> rcases td with _ | t <;> dsimp only
  · exact ⟨_, rfl⟩
  · exact ⟨_, rfl⟩
  · exact ⟨_, rfl⟩
  · rcases h with h | h | ⟨f', t', hf', ht', hlt⟩ | ⟨f', t', hf', ht', hgt⟩ | ⟨h, hm⟩ | h
    · simp at h
    · simp at h
    · cases hf'; cases ht'
      split_ifs <;> first | exact ⟨_, rfl⟩ | simp_all
    · cases hf'; cases ht'
      split_ifs <;> first | exact ⟨_, rfl⟩ | simp_all
    · have htf : templateFor ty = none := by
        unfold templateFor
        rw [Option.map_eq_none']
        rw [List.find?_eq_none]
        intro x hx
        fin_cases hx <;>
          (intro hh; rw [decide_eq_true_eq] at hh; simp only at hh; subst hh; tauto)
      have htl : templateLookupTruthy ty = false := by
        unfold templateLookupTruthy
        rw [htf]
        simpa using hm
      split_ifs <;> first | exact ⟨_, rfl⟩ | simp_all
    · have hcf : (["json", "csv", "pdf"].contains fm) = false := by
        simpa using h
      split_ifs <;> first | exact ⟨_, rfl⟩ | simp_all

theorem generateReport_no_dead_msg (env : ReportsEnv) (rng : Rng) (p : ReportParams)
    (history : List ReportRecord) :
    (generateReport env rng p history).2 ≠
      .failure "❌ Report generation failed: Invalid report parameters" := by
  unfold generateReport
  rcases hv : validateReportParameters p with e | b
  · have hm := validate_error_mem p e hv
    simp only
    intro hc
    fin_cases hm <;> (injection hc with hstr; exact absurd hstr (by decide))
  · have := validate_ok_true p b hv
    subst this
    simp

end Reports

namespace Config

theorem validate_https_reject (checkUrl : String → Bool) (d : ConfigData)
    (hu : checkUrl d.baseUrl = true) (hne : d.baseUrl ≠ "")
    (hs : strStartsWith d.baseUrl "https://" = false) :
    (validateConfiguration checkUrl d).isValid = false ∧
    "Base URL must use HTTPS" ∈ (validateConfiguration checkUrl d).errors := by
  have hseg : (if d.baseUrl = "" then ["Base URL is required"]
      else if checkUrl d.baseUrl = false then ["Base URL is not valid"]
      else if strStartsWith d.baseUrl "https://" = false then ["Base URL must use HTTPS"]
      else []) = ["Base URL must use HTTPS"] := by
    rw [if_neg hne, if_neg (show ¬ (checkUrl d.baseUrl = false) by simp [hu]), if_pos hs]
  have hmem : "Base URL must use HTTPS" ∈ (validateConfiguration checkUrl d).errors := by
    simp only [validateConfiguration]
    rw [hseg]
    simp
  refine ⟨?_, hmem⟩
  have h2 : (validateConfiguration checkUrl d).isValid =
      (validateConfiguration checkUrl d).errors.isEmpty := rfl
  rcases hl : (validateConfiguration checkUrl d).errors with _ | ⟨a, l⟩
  · rw [hl] at hmem; cases hmem
  · rw [h2, hl]; rfl

theorem validate_accept (checkUrl : String → Bool) (d : ConfigData)
    (hn : nameFormat d.integrationName = true)
    (hc : codeFormat d.integrationCode = true)
    (hu : checkUrl d.baseUrl = true)
    (hs : strStartsWith d.baseUrl "https://" = true)
    (hus : d.pluginUsername ≠ "") (hpw : d.pluginPassword ≠ "") :
    (validateConfiguration checkUrl d).isValid = true ∧
    (validateConfiguration checkUrl d).errors = [] := by
  have hn' : d.integrationName ≠ "" := by
    intro e
    rw [e] at hn
    simp [nameFormat] at hn
  have hc' : d.integrationCode ≠ "" := by
    intro e
    rw [e] at hc
    simp [codeFormat] at hc
  have hb' : d.baseUrl ≠ "" := by
    intro e
    rw [e] at hs
    exact absurd hs (by decide)
  have herr : (validateConfiguration checkUrl d).errors = [] := by
    simp only [validateConfiguration]
    rw [if_neg hn', if_neg (show ¬ (nameFormat d.integrationName = false) by simp [hn]),
      if_neg hc', if_neg (show ¬ (codeFormat d.integrationCode = false) by simp [hc]),
      if_neg hb', if_neg (show ¬ (checkUrl d.baseUrl = false) by simp [hu]),
      if_neg (show ¬ (strStartsWith d.baseUrl "https://" = false) by simp [hs]),
      if_neg hus, if_neg hpw]
    rfl
  have h2 : (validateConfiguration checkUrl d).isValid =
      (validateConfiguration checkUrl d).errors.isEmpty := rfl
  rw [h2, herr]
  exact ⟨rfl, rfl⟩

end Config

namespace Auth

theorem login_ok (mkToken : String → String) (u p : String) (hu : u ≠ "") (hp : p ≠ "") :
    ∃ d : TokenData, loginHandler mkToken ⟨some u, some p⟩ = .ok d ∧
      d.access_token = mkToken u ∧ d.refresh_token = mkToken (u ++ "_refresh") ∧
      d.token_type = "Bearer" ∧ d.expires_in = 3600 := by
  have h : loginHandler mkToken ⟨some u, some p⟩ =
      .ok ⟨mkToken u, mkToken (u ++ "_refresh"), "Bearer", 3600⟩ := by
    unfold loginHandler jsTruthyOptStr
    simp [hu, hp]
  exact ⟨_, h, rfl, rfl, rfl, rfl⟩

theorem login_reject (mkToken : String → String) (b : LoginBody)
    (h : b.username = none ∨ b.username = some "" ∨
      b.password = none ∨ b.password = some "") :
    loginHandler mkToken b = .badRequest "Username and password required" := by
  unfold loginHandler jsTruthyOptStr
  rcases h with h | h | h | h <;> rw [h] <;> simp

end Auth

/-! ## Claims -/

/-- C1 (amended): the success rate is computed over the lifetime counters
`successfulCalls / (successfulCalls + failedCalls) * 100`, not a sliding
window — but after two tracked successful calls and one tracked failed call
(and no other events) the value appended by `updateSuccessRate` is 50%, not
66.7%: the failed call bumps `failedCalls` twice, once in `trackAPICallEnd`
and once more in `addLog` for the error-level log entry it writes.  The
three appended success-rate values are 100, 100 and 50. -/
theorem claim_C1 (k1 k2 k3 k4 k5 k6 : Monitoring.Clock) (c1 c2 c3 : ℚ)
    (e1 m1 e2 m2 e3 m3 : String) (st1 st2 st3 : JSValue)
    (h1 : c1 ≠ 0) (h2 : c2 ≠ 0) (h3 : c3 ≠ 0) :
    ((Monitoring.run Monitoring.initState
      [ .trackStart k1 ⟨some c1, e1, m1⟩, .trackEnd k2 ⟨c1, true, st1⟩,
        .trackStart k3 ⟨some c2, e2, m2⟩, .trackEnd k4 ⟨c2, true, st2⟩,
        .trackStart k5 ⟨some c3, e3, m3⟩, .trackEnd k6 ⟨c3, false, st3⟩ ]).successRate).map
        Monitoring.MetricPoint.value = [100, 100, 50] := by
  simp [Monitoring.run, Monitoring.step, Monitoring.trackAPICallStart,
    Monitoring.trackAPICallEnd, Monitoring.addLog, Monitoring.updateSuccessRate,
    Monitoring.updateErrorRate, Monitoring.mapGet?, Monitoring.mapSet, Monitoring.mapDelete,
    Monitoring.initState, pushTrunc, sliceLast, jsOrStr, jsOrNull, jsFalsy,
    Monitoring.maxMetricPoints, Monitoring.maxLogEntries, h1, h2, h3]
  norm_num

/-- C1 witness: the amended statement at a concrete trace. -/
theorem claim_C1_witness :
    (7 : ℚ) ≠ 0 ∧ (8 : ℚ) ≠ 0 ∧ (9 : ℚ) ≠ 0 ∧
    ((Monitoring.run Monitoring.initState
      [ .trackStart ⟨10, "a", 0, 0⟩ ⟨some 7, "/v1/login", "POST"⟩,
        .trackEnd ⟨11, "b", 0, 3⟩ ⟨7, true, .null⟩,
        .trackStart ⟨12, "c", 0, 4⟩ ⟨some 8, "/v1/login", "POST"⟩,
        .trackEnd ⟨13, "d", 0, 6⟩ ⟨8, true, .null⟩,
        .trackStart ⟨14, "e", 0, 7⟩ ⟨some 9, "/v1/orders", "GET"⟩,
        .trackEnd ⟨15, "f", 0, 9⟩ ⟨9, false, .null⟩ ]).successRate).map
        Monitoring.MetricPoint.value = [100, 100, 50] :=
  ⟨by norm_num, by norm_num, by norm_num,
   claim_C1 ⟨10, "a", 0, 0⟩ ⟨11, "b", 0, 3⟩ ⟨12, "c", 0, 4⟩ ⟨13, "d", 0, 6⟩
     ⟨14, "e", 0, 7⟩ ⟨15, "f", 0, 9⟩ 7 8 9 "/v1/login" "POST" "/v1/login" "POST"
     "/v1/orders" "GET" .null .null .null (by norm_num) (by norm_num) (by norm_num)⟩

/-- C1 counterexample: on the scenario of the claim (two tracked successes,
then one tracked failure, from a fresh state) the value appended by
`updateSuccessRate` is exactly 50, which is not approximately 66.7. -/
theorem claim_C1_counterexample :
    ((Monitoring.run Monitoring.initState
      [ .trackStart ⟨1, "t1", 0, 0⟩ ⟨some 1, "/auth", "POST"⟩,
        .trackEnd ⟨2, "t2", 0, 5⟩ ⟨1, true, .null⟩,
        .trackStart ⟨3, "t3", 0, 10⟩ ⟨some 2, "/auth", "POST"⟩,
        .trackEnd ⟨4, "t4", 0, 15⟩ ⟨2, true, .null⟩,
        .trackStart ⟨5, "t5", 0, 20⟩ ⟨some 3, "/orders", "GET"⟩,
        .trackEnd ⟨6, "t6", 0, 25⟩ ⟨3, false, .null⟩ ]).successRate).map
        Monitoring.MetricPoint.value = [100, 100, 50] ∧ ¬ ((66 : ℚ) ≤ 50) := by
  constructor
  · simp [Monitoring.run, Monitoring.step, Monitoring.trackAPICallStart,
      Monitoring.trackAPICallEnd, Monitoring.addLog, Monitoring.updateSuccessRate,
      Monitoring.updateErrorRate, Monitoring.mapGet?, Monitoring.mapSet,
      Monitoring.mapDelete, Monitoring.initState, pushTrunc, sliceLast, jsOrStr,
      jsOrNull, jsFalsy, Monitoring.maxMetricPoints, Monitoring.maxLogEntries]
    norm_num
  · norm_num

/-- C2 (amended): on any parameter set violating the validation rules —
missing date, inverted range, range over 365 days, unknown format, or a
type that is neither one of the five template keys nor the name of an
inherited `Object.prototype` member — the report generator surfaces exactly
one descriptive error (the single caught message) and appends nothing to
the report history.  The prototype-member exception is forced by the
source: the check `!this.reportTemplates[params.type]` is a bracket lookup
that walks the prototype chain, so a type such as `toString` is truthy
there and is NOT rejected (see the counterexample). -/
theorem claim_C2 (env : Reports.ReportsEnv) (rng : Reports.Rng) (p : Reports.ReportParams)
    (history : List Reports.ReportRecord)
    (h : p.fromDate = none ∨ p.toDate = none ∨
      (∃ f t, p.fromDate = some f ∧ p.toDate = some t ∧ t < f) ∨
      (∃ f t, p.fromDate = some f ∧ p.toDate = some t ∧
        (365 : ℚ) < ((t - f : Int) : ℚ) / (1000 * 60 * 60 * 24)) ∨
      (p.type ∉ ["completed", "cancelled", "performance", "errors", "all"] ∧
        p.type ∉ Reports.objectPrototypeMembers) ∨
      p.format ∉ ["json", "csv", "pdf"]) :
    ∃ e, Reports.validateReportParameters p = .error e ∧
      Reports.generateReport env rng p history =
        (history, .failure ("❌ Report generation failed: " ++ e)) := by
  obtain ⟨e, hv⟩ := Reports.validate_invalid_error p h
  refine ⟨e, hv, ?_⟩
  unfold Reports.generateReport
  rw [hv]

/-- C2 counterexample: the type `toString` is outside the five template
keys, yet with valid dates and format the request passes validation (the
bracket lookup finds the inherited, truthy `Object.prototype.toString`) and
`generateReport` appends a record to the (empty) history instead of
rejecting the request. -/
theorem claim_C2_counterexample :
    ("toString" ∉ ["completed", "cancelled", "performance", "errors", "all"]) ∧
    Reports.validateReportParameters ⟨some 0, some 0, "toString", "json"⟩ = .ok true ∧
    (Reports.generateReport sampleEnv sampleRng
      ⟨some 0, some 0, "toString", "json"⟩ []).1.length = 1 := by
  have hv : Reports.validateReportParameters ⟨some 0, some 0, "toString", "json"⟩ =
      .ok true := by
    simp only [Reports.validateReportParameters, Reports.templateLookupTruthy,
      Reports.templateFor, Reports.reportTemplates, Reports.objectPrototypeMembers]
    norm_num
  refine ⟨by decide, hv, ?_⟩
  unfold Reports.generateReport
  rw [hv]
  simp

/-- C2 witness: an inverted date range is rejected with one error and the
(empty) history is unchanged. -/
theorem claim_C2_witness :
    ((1 : Int) < 5) ∧
    (∃ e, Reports.validateReportParameters ⟨some 5, some 1, "completed", "json"⟩ = .error e ∧
      Reports.generateReport sampleEnv sampleRng ⟨some 5, some 1, "completed", "json"⟩ [] =
        ([], .failure ("❌ Report generation failed: " ++ e))) :=
  ⟨by norm_num,
   claim_C2 sampleEnv sampleRng ⟨some 5, some 1, "completed", "json"⟩ []
     (Or.inr (Or.inr (Or.inl ⟨5, 1, rfl, rfl, by norm_num⟩)))⟩

/-- C3: starting from any state within bounds, any sequence of monitoring
operations leaves at most `maxLogEntries` (1000) log entries and at most
`maxMetricPoints` (50) points in each of the response-time, success-rate
and error-rate series. -/
theorem claim_C3 (s : Monitoring.MState) (ops : List Monitoring.Op)
    (h : Monitoring.inBounds s) :
    Monitoring.maxLogEntries = 1000 ∧ Monitoring.maxMetricPoints = 50 ∧
    (Monitoring.run s ops).logs.length ≤ Monitoring.maxLogEntries ∧
    (Monitoring.run s ops).responseTime.length ≤ Monitoring.maxMetricPoints ∧
    (Monitoring.run s ops).successRate.length ≤ Monitoring.maxMetricPoints ∧
    (Monitoring.run s ops).errorRate.length ≤ Monitoring.maxMetricPoints := by
  obtain ⟨h1, h2, h3, h4⟩ := Monitoring.inBounds_run s ops h
  exact ⟨rfl, rfl, h1, h2, h3, h4⟩

/-- C3 witness: the bounds at the initial state and a concrete event list. -/
theorem claim_C3_witness :
    Monitoring.inBounds Monitoring.initState ∧
    (Monitoring.maxLogEntries = 1000 ∧ Monitoring.maxMetricPoints = 50 ∧
    (Monitoring.run Monitoring.initState
      [ .trackStart ⟨0, "", 0, 0⟩ ⟨some 1, "/a", "GET"⟩,
        .trackEnd ⟨1, "", 0, 2⟩ ⟨1, false, .null⟩,
        .updError ⟨2, "", 0, 0⟩ ]).logs.length ≤ Monitoring.maxLogEntries ∧
    (Monitoring.run Monitoring.initState
      [ .trackStart ⟨0, "", 0, 0⟩ ⟨some 1, "/a", "GET"⟩,
        .trackEnd ⟨1, "", 0, 2⟩ ⟨1, false, .null⟩,
        .updError ⟨2, "", 0, 0⟩ ]).responseTime.length ≤ Monitoring.maxMetricPoints ∧
    (Monitoring.run Monitoring.initState
      [ .trackStart ⟨0, "", 0, 0⟩ ⟨some 1, "/a", "GET"⟩,
        .trackEnd ⟨1, "", 0, 2⟩ ⟨1, false, .null⟩,
        .updError ⟨2, "", 0, 0⟩ ]).successRate.length ≤ Monitoring.maxMetricPoints ∧
    (Monitoring.run Monitoring.initState
      [ .trackStart ⟨0, "", 0, 0⟩ ⟨some 1, "/a", "GET"⟩,
        .trackEnd ⟨1, "", 0, 2⟩ ⟨1, false, .null⟩,
        .updError ⟨2, "", 0, 0⟩ ]).errorRate.length ≤ Monitoring.maxMetricPoints) :=
  ⟨by decide,
   claim_C3 Monitoring.initState
     [ .trackStart ⟨0, "", 0, 0⟩ ⟨some 1, "/a", "GET"⟩,
       .trackEnd ⟨1, "", 0, 2⟩ ⟨1, false, .null⟩,
       .updError ⟨2, "", 0, 0⟩ ] (by decide)⟩

/-- C4 (amended): for every non-empty record list, the CSV output is the
newline-join of a header — the comma-join of the sorted column list, whose
length is the number of distinct column-eligible (non-object, non-array)
keys across all records — and one comma-joined row per record; every cell
whose value is present and neither `null` nor `undefined` is double-quoted
with embedded quotes doubled, while `null`, `undefined` and absent values
yield an empty, unquoted cell. -/
theorem claim_C4 (records : List Record) (hne : records ≠ []) :
    Reports.formatAsCSV records =
      String.intercalate "\n"
        (String.intercalate "," (Reports.csvColumnArray records) ::
          records.map (fun r =>
            String.intercalate "," (Reports.csvRow (Reports.csvColumnArray records) r))) ∧
    (Reports.csvColumnArray records).length = (Reports.csvEligibleKeys records).dedup.length ∧
    List.Sorted (· ≤ ·) (Reports.csvColumnArray records) ∧
    (∀ r ∈ records, ∀ c v, recordGet? r c = some v →
      v ≠ .null → v ≠ .undefined →
      Reports.csvField r c = "\"" ++ Reports.escQuotes (jsToString v) ++ "\"") := by
  refine ⟨?_, ?_, ?_, ?_⟩
  · rw [Reports.formatAsCSV, if_neg (by simpa using hne)]
  · exact (List.perm_insertionSort _ _).length_eq
  · exact List.sorted_insertionSort _ _
  · intro r _hr c v hv hnull hundef
    unfold Reports.csvField
    rw [hv]
    cases v <;> simp_all

/-- C4 witness: the amended statement at a two-column record list with an
embedded quote. -/
theorem claim_C4_witness :
    ([[("b", JSValue.num 1), ("a", JSValue.str "x\"y")]] : List Record) ≠ [] ∧
    (Reports.formatAsCSV [[("b", JSValue.num 1), ("a", JSValue.str "x\"y")]] =
      String.intercalate "\n"
        (String.intercalate ","
            (Reports.csvColumnArray [[("b", JSValue.num 1), ("a", JSValue.str "x\"y")]]) ::
          [[("b", JSValue.num 1), ("a", JSValue.str "x\"y")]].map (fun r =>
            String.intercalate ","
              (Reports.csvRow
                (Reports.csvColumnArray [[("b", JSValue.num 1), ("a", JSValue.str "x\"y")]]) r))) ∧
    (Reports.csvColumnArray [[("b", JSValue.num 1), ("a", JSValue.str "x\"y")]]).length =
      (Reports.csvEligibleKeys [[("b", JSValue.num 1), ("a", JSValue.str "x\"y")]]).dedup.length ∧
    List.Sorted (· ≤ ·)
      (Reports.csvColumnArray [[("b", JSValue.num 1), ("a", JSValue.str "x\"y")]]) ∧
    (∀ r ∈ ([[("b", JSValue.num 1), ("a", JSValue.str "x\"y")]] : List Record),
      ∀ c v, recordGet? r c = some v → v ≠ .null → v ≠ .undefined →
      Reports.csvField r c = "\"" ++ Reports.escQuotes (jsToString v) ++ "\"")) :=
  ⟨by simp, claim_C4 [[("b", JSValue.num 1), ("a", JSValue.str "x\"y")]] (by simp)⟩

/-- C4 counterexample: a record whose value is `null` produces an empty,
unquoted cell, so not every data value is double-quoted as the original
claim states. -/
theorem claim_C4_counterexample :
    Reports.formatAsCSV [[("a", JSValue.null)]] = "a\n" ∧
    Reports.csvRow (Reports.csvColumnArray [[("a", JSValue.null)]]) [("a", JSValue.null)] =
      [""] ∧
    strStartsWith "" "\"" = false := by
  refine ⟨?_, ?_, ?_⟩ <;> rfl

/-- C5: for every valid completed-orders request, the generated document's
`summary.total_orders` equals the length of its `records` list, for every
environment and random source. -/
theorem claim_C5 (env : Reports.ReportsEnv) (rng : Reports.Rng) (p : Reports.ReportParams)
    (_hv : Reports.validateReportParameters p = .ok true) (hty : p.type = "completed") :
    recordGet? (Reports.createReportData env rng p).summary "total_orders" =
      some (.num ((Reports.createReportData env rng p).records.length : ℚ)) := by
  obtain ⟨fd, td, ty, fm⟩ := p
  simp only at hty
  subst hty
  simp [Reports.createReportData, Reports.generateCompletedOrdersReport, recordGet?,
    List.find?]

/-- C5 witness: the claim's example request (2024-01-01 … 2024-01-31,
completed, json; dates as epoch milliseconds). -/
theorem claim_C5_witness :
    Reports.validateReportParameters
      ⟨some 1704067200000, some 1706659200000, "completed", "json"⟩ = .ok true ∧
    recordGet?
      (Reports.createReportData sampleEnv sampleRng
        ⟨some 1704067200000, some 1706659200000, "completed", "json"⟩).summary
      "total_orders" =
      some (.num ((Reports.createReportData sampleEnv sampleRng
        ⟨some 1704067200000, some 1706659200000, "completed", "json"⟩).records.length : ℚ)) :=
  ⟨by
    simp only [Reports.validateReportParameters, Reports.templateLookupTruthy,
      Reports.templateFor, Reports.reportTemplates, Reports.objectPrototypeMembers]
    norm_num,
   claim_C5 sampleEnv sampleRng ⟨some 1704067200000, some 1706659200000, "completed", "json"⟩
     (by
       simp only [Reports.validateReportParameters, Reports.templateLookupTruthy,
         Reports.templateFor, Reports.reportTemplates, Reports.objectPrototypeMembers]
       norm_num)
     rfl⟩

/-- C6: the configuration validator is a pure function returning a validity
flag and an error list (here parameterised by the browser URL parser): a
parsing but non-HTTPS base URL is rejected with the HTTPS error, and a
record with a pattern-matching name, a lowercase-with-hyphens code, a
parsing HTTPS base URL and non-empty credentials is accepted with no
errors.  (The `baseUrl ≠ ""` hypothesis mirrors that `new URL('')` throws
in a browser, so an empty string never parses.) -/
theorem claim_C6 :
    (∀ (checkUrl : String → Bool) (d : Config.ConfigData),
      checkUrl d.baseUrl = true → d.baseUrl ≠ "" →
      strStartsWith d.baseUrl "https://" = false →
      (Config.validateConfiguration checkUrl d).isValid = false ∧
      "Base URL must use HTTPS" ∈ (Config.validateConfiguration checkUrl d).errors) ∧
    (∀ (checkUrl : String → Bool) (d : Config.ConfigData),
      Config.nameFormat d.integrationName = true →
      Config.codeFormat d.integrationCode = true →
      checkUrl d.baseUrl = true →
      strStartsWith d.baseUrl "https://" = true →
      d.pluginUsername ≠ "" → d.pluginPassword ≠ "" →
      (Config.validateConfiguration checkUrl d).isValid = true ∧
      (Config.validateConfiguration checkUrl d).errors = []) :=
  ⟨Config.validate_https_reject, Config.validate_accept⟩

/-- C6 witness: both directions at concrete configurations (the accepted one
is the repository's demo configuration). -/
theorem claim_C6_witness :
    (strStartsWith "http://demo.example" "https://" = false ∧
     (Config.validateConfiguration (fun _ => true)
        ⟨"", "", "http://demo.example", "", ""⟩).isValid = false ∧
     "Base URL must use HTTPS" ∈
       (Config.validateConfiguration (fun _ => true)
          ⟨"", "", "http://demo.example", "", ""⟩).errors) ∧
    (Config.nameFormat "Demo POS UAE" = true ∧
     Config.codeFormat "demo-pos-ae" = true ∧
     strStartsWith "https://demo-pos-api.com" "https://" = true ∧
     (Config.validateConfiguration (fun _ => true)
        ⟨"Demo POS UAE", "demo-pos-ae", "https://demo-pos-api.com",
          "demo-user", "demo-pass"⟩).isValid = true ∧
     (Config.validateConfiguration (fun _ => true)
        ⟨"Demo POS UAE", "demo-pos-ae", "https://demo-pos-api.com",
          "demo-user", "demo-pass"⟩).errors = []) :=
  ⟨⟨by decide,
    (claim_C6.1 (fun _ => true) ⟨"", "", "http://demo.example", "", ""⟩
      rfl (by decide) (by decide)).1,
    (claim_C6.1 (fun _ => true) ⟨"", "", "http://demo.example", "", ""⟩
      rfl (by decide) (by decide)).2⟩,
   ⟨by decide, by decide, by decide,
    (claim_C6.2 (fun _ => true)
      ⟨"Demo POS UAE", "demo-pos-ae", "https://demo-pos-api.com", "demo-user", "demo-pass"⟩
      (by decide) (by decide) rfl (by decide) (by decide) (by decide)).1,
    (claim_C6.2 (fun _ => true)
      ⟨"Demo POS UAE", "demo-pos-ae", "https://demo-pos-api.com", "demo-user", "demo-pass"⟩
      (by decide) (by decide) rfl (by decide) (by decide) (by decide)).2⟩⟩

/-- C7: the login endpoint succeeds for every request with non-empty
username and password, returning the token payload (access token, refresh
token, `Bearer`, 3600s expiry), and responds 400 without a token whenever
either credential is empty or missing. -/
theorem claim_C7 :
    (∀ (mkToken : String → String) (u p : String), u ≠ "" → p ≠ "" →
      ∃ d : Auth.TokenData, Auth.loginHandler mkToken ⟨some u, some p⟩ = .ok d ∧
        d.access_token = mkToken u ∧ d.refresh_token = mkToken (u ++ "_refresh") ∧
        d.token_type = "Bearer" ∧ d.expires_in = 3600) ∧
    (∀ (mkToken : String → String) (b : Auth.LoginBody),
      (b.username = none ∨ b.username = some "" ∨
        b.password = none ∨ b.password = some "") →
      Auth.loginHandler mkToken b = .badRequest "Username and password required") :=
  ⟨Auth.login_ok, Auth.login_reject⟩

/-- C7 witness: a concrete accepted login and a concrete rejected one. -/
theorem claim_C7_witness :
    ("admin" : String) ≠ "" ∧ ("secret" : String) ≠ "" ∧
    (∃ d : Auth.TokenData,
      Auth.loginHandler (fun s => s ++ "-token") ⟨some "admin", some "secret"⟩ = .ok d ∧
      d.access_token = (fun s => s ++ "-token") "admin" ∧
      d.refresh_token = (fun s => s ++ "-token") ("admin" ++ "_refresh") ∧
      d.token_type = "Bearer" ∧ d.expires_in = 3600) ∧
    Auth.loginHandler (fun s => s ++ "-token") ⟨none, some "pw"⟩ =
      .badRequest "Username and password required" :=
  ⟨by decide, by decide,
   claim_C7.1 (fun s => s ++ "-token") "admin" "secret" (by decide) (by decide),
   claim_C7.2 (fun s => s ++ "-token") ⟨none, some "pw"⟩ (Or.inl rfl)⟩

/-- C8: `validateReportParameters` never returns `false` — every run either
throws or returns `true` — so `generateReport` can never surface the
`Invalid report parameters` message of its falsity branch. -/
theorem claim_C8 :
    (∀ (p : Reports.ReportParams) (b : Bool),
      Reports.validateReportParameters p = .ok b → b = true) ∧
    (∀ (env : Reports.ReportsEnv) (rng : Reports.Rng) (p : Reports.ReportParams)
      (history : List Reports.ReportRecord),
      (Reports.generateReport env rng p history).2 ≠
        .failure "❌ Report generation failed: Invalid report parameters") :=
  ⟨Reports.validate_ok_true, Reports.generateReport_no_dead_msg⟩

/-- C8 witness: a run of the validator that returns, returns `true`. -/
theorem claim_C8_witness :
    Reports.validateReportParameters ⟨some 99, some 99, "cancelled", "csv"⟩ =
      .ok true ∧ true = true := by
  have h : Reports.validateReportParameters ⟨some 99, some 99, "cancelled", "csv"⟩ =
      .ok true := by
    simp only [Reports.validateReportParameters, Reports.templateLookupTruthy,
      Reports.templateFor, Reports.reportTemplates, Reports.objectPrototypeMembers]
    norm_num
  exact ⟨h, claim_C8.1 ⟨some 99, some 99, "cancelled", "csv"⟩ true h⟩

/-- C9: after `clearLogs` the log list is not empty — it holds exactly the
one info-level `All logs cleared` entry that `clearLogs` appends after
emptying the list. -/
theorem claim_C9 (clk : Monitoring.Clock) (s : Monitoring.MState) :
    (Monitoring.clearLogs clk s).logs.length = 1 ∧
    (Monitoring.clearLogs clk s).logs.map (fun e => (e.level, e.message)) =
      [("info", "All logs cleared")] := by
  have h := Monitoring.clearLogs_singleton clk s
  constructor
  · have hl := congrArg List.length h
    simpa using hl
  · exact h

/-- C10: a request with `fromDate = toDate` passes validation, yet the
completed- and cancelled-orders generators compute a day count of zero and
so produce an empty records list and zero-valued count summaries. -/
theorem claim_C10 (env : Reports.ReportsEnv) (rng : Reports.Rng) (rd : Reports.ReportData)
    (p : Reports.ReportParams) (d : Int)
    (hf : p.fromDate = some d) (ht : p.toDate = some d)
    (hty : p.type ∈ ["completed", "cancelled", "performance", "errors", "all"])
    (hfm : p.format ∈ ["json", "csv", "pdf"]) :
    Reports.validateReportParameters p = .ok true ∧
    (Reports.generateCompletedOrdersReport env rng rd p).records = [] ∧
    recordGet? (Reports.generateCompletedOrdersReport env rng rd p).summary
      "total_orders" = some (.num 0) ∧
    (Reports.generateCancelledOrdersReport env rng rd p).records = [] ∧
    recordGet? (Reports.generateCancelledOrdersReport env rng rd p).summary
      "total_cancelled" = some (.num 0) ∧
    recordGet? (Reports.generateCancelledOrdersReport env rng rd p).summary
      "customer_cancelled" = some (.num 0) ∧
    recordGet? (Reports.generateCancelledOrdersReport env rng rd p).summary
      "refunds_processed" = some (.num 0) := by
  obtain ⟨fd, td, ty, fm⟩ := p
  simp only at hf ht hty hfm
  subst hf; subst ht
  refine ⟨?_, ?_⟩
  · unfold Reports.validateReportParameters
    dsimp only
    have h1 : ¬ (d < d) := lt_irrefl d
    have h2 : ¬ ((365 : ℚ) < ((d - d : Int) : ℚ) / (1000 * 60 * 60 * 24)) := by
      simp
    rw [if_neg h1, if_neg h2, if_neg (by fin_cases hty <;> decide),
      if_neg (by fin_cases hfm <;> decide)]
  · constructor
    · simp [Reports.generateCompletedOrdersReport, mathCeil]
    constructor
    · simp [Reports.generateCompletedOrdersReport, mathCeil, recordGet?, List.find?]
    constructor
    · simp [Reports.generateCancelledOrdersReport, mathCeil]
    constructor
    · simp [Reports.generateCancelledOrdersReport, mathCeil, recordGet?, List.find?]
    constructor
    · simp [Reports.generateCancelledOrdersReport, mathCeil, recordGet?, List.find?]
    · simp [Reports.generateCancelledOrdersReport, mathCeil, recordGet?, List.find?]

/-- C10 witness: a same-day request, accepted and empty. -/
theorem claim_C10_witness :
    ("completed" ∈ ["completed", "cancelled", "performance", "errors", "all"]) ∧
    ("json" ∈ ["json", "csv", "pdf"]) ∧
    (Reports.validateReportParameters ⟨some 99, some 99, "completed", "json"⟩ = .ok true ∧
    (Reports.generateCompletedOrdersReport sampleEnv sampleRng sampleBase
      ⟨some 99, some 99, "completed", "json"⟩).records = [] ∧
    recordGet? (Reports.generateCompletedOrdersReport sampleEnv sampleRng sampleBase
      ⟨some 99, some 99, "completed", "json"⟩).summary "total_orders" = some (.num 0) ∧
    (Reports.generateCancelledOrdersReport sampleEnv sampleRng sampleBase
      ⟨some 99, some 99, "completed", "json"⟩).records = [] ∧
    recordGet? (Reports.generateCancelledOrdersReport sampleEnv sampleRng sampleBase
      ⟨some 99, some 99, "completed", "json"⟩).summary "total_cancelled" = some (.num 0) ∧
    recordGet? (Reports.generateCancelledOrdersReport sampleEnv sampleRng sampleBase
      ⟨some 99, some 99, "completed", "json"⟩).summary "customer_cancelled" =
        some (.num 0) ∧
    recordGet? (Reports.generateCancelledOrdersReport sampleEnv sampleRng sampleBase
      ⟨some 99, some 99, "completed", "json"⟩).summary "refunds_processed" =
        some (.num 0)) :=
  ⟨by decide, by decide,
   claim_C10 sampleEnv sampleRng sampleBase ⟨some 99, some 99, "completed", "json"⟩ 99
     rfl rfl (by decide) (by decide)⟩

end POS
